import Mathlib

/-!
Formalisation of the alpine-lift configuration core (`pkg/lift/data.go`).

The Go file declares the `AlpineData` schema tree, the `MultiString`
scalar-or-list type with its custom `UnmarshalYAML`, the default constructor
`InitAlpineData`, and the derived view `getSSHDKVMap` / `boolToYesNo`.

The decode callback handed to `UnmarshalYAML` by the serialization library is
not part of this repository; following the specification, a decode source is
modelled as a `YamlNode` tree, and decoding a node at an expected primitive
type succeeds exactly when the node has that shape (a string scalar for
`string`, a sequence of string scalars for a list of strings, and so on).
Go struct decoding is modelled field by field: an absent key leaves the
field at its zero value, a present key decodes the value at the field type,
and any failure aborts the whole decode.
-/

/-- A decode failure; the Go side returns an `error` value. -/
structure DecodeError where
  msg : String
deriving Repr, DecidableEq

/-- Modelled from the spec: the shape of a decode source ("the node being
decoded") handed to unmarshalling code by the serialization library, which is
not part of this repository.  A node is a scalar (string, integer, boolean or
null), a sequence, or a mapping with string keys. -/
inductive YamlNode where
  | str (s : String)
  | int (n : Int)
  | bool (b : Bool)
  | null
  | seq (items : List YamlNode)
  | map (entries : List (String × YamlNode))

/-- Modelled from the spec: decoding a node at type `string` succeeds exactly
on a string scalar and yields that string. -/
def decodeString : YamlNode → Except DecodeError String
  | .str s => .ok s
  | _ => .error ⟨"cannot unmarshal node into string"⟩

/-- Modelled from the spec: decoding a node at type `int` succeeds exactly on
an integer scalar. -/
def decodeInt : YamlNode → Except DecodeError Int
  | .int n => .ok n
  | _ => .error ⟨"cannot unmarshal node into int"⟩

/-- Modelled from the spec: decoding a node at type `bool` succeeds exactly on
a boolean scalar. -/
def decodeBool : YamlNode → Except DecodeError Bool
  | .bool b => .ok b
  | _ => .error ⟨"cannot unmarshal node into bool"⟩

/-- Decode every element of a sequence with `dec`, in order, failing on the
first element that fails. -/
def decodeElems {α : Type} (dec : YamlNode → Except DecodeError α) :
    List YamlNode → Except DecodeError (List α)
  | [] => .ok []
  | v :: rest => do
      let a ← dec v
      let tail ← decodeElems dec rest
      pure (a :: tail)

/-- Modelled from the spec: decoding a node at type `[]string` succeeds
exactly on a sequence node all of whose elements are string scalars. -/
def decodeStringList : YamlNode → Except DecodeError (List String)
  | .seq items => decodeElems decodeString items
  | _ => .error ⟨"cannot unmarshal node into string list"⟩

/-- `true` exactly on a string scalar node. -/
def isStringScalar : YamlNode → Bool
  | .str _ => true
  | _ => false

/-- `true` exactly on a sequence node whose elements are all string scalars,
i.e. on the nodes representing a list of strings. -/
def isStringList : YamlNode → Bool
  | .seq items => items.all isStringScalar
  | _ => false

/-- `MultiString` is a type alias for a list of strings (Go: `[]string`). -/
abbrev MultiString := List String

/-- `MultiString.UnmarshalYAML` from the source: first try to decode the node
as a list of strings; on failure fall back to decoding it as a single string,
wrapping the result in a one-element list; if that also fails, return the
second error and leave the receiver unchanged.  The Go receiver `*ms` is
modelled by passing the prior value in and returning the updated value
together with the returned `error` (`none` meaning `nil`). -/
def MultiString.unmarshalYAML (ms : MultiString) (node : YamlNode) :
    MultiString × Option DecodeError :=
  match decodeStringList node with
  | .ok values => (values, none)
  | .error _ =>
    match decodeString node with
    | .ok s => ([s], none)
    | .error e => (ms, some e)

/-- `User` specifies a specific OS user. -/
structure User where
  Name : String
  Description : String
  HomeDir : String
  Shell : String
  NoCreateHomeDir : Bool
  PrimaryGroup : String
  Groups : MultiString
  System : Bool
  SSHAuthorizedKeys : List String
  Password : String
deriving Repr, DecidableEq

/-- `SSHD` specifies the `sshd` entry. -/
structure SSHD where
  Port : Int
  ListenAddress : String
  AuthorizedKeys : List String
  PermitRootLogin : Bool
  PermitEmptyPasswords : Bool
  PasswordAuthentication : Bool
deriving Repr, DecidableEq

/-- `DRProvision` is used for installing and configuring drpcli. -/
structure DRProvision where
  InstallRunner : Bool
  AssetsURL : String
  Token : String
  Endpoint : String
  UUID : String
deriving Repr, DecidableEq

/-- `ResolvConfiguration` contains the DNS spec. -/
structure ResolvConfiguration where
  NameServers : MultiString
  SearchDomains : MultiString
  Domain : String
deriving Repr, DecidableEq

/-- `NTPConfiguration` is used for configuring chronyd. -/
structure NTPConfiguration where
  Pools : MultiString
  Servers : MultiString
deriving Repr, DecidableEq

/-- `NetworkSettings` contains all network settings lift should apply.
Go nil-able pointers to nested sections are modelled as `Option`. -/
structure NetworkSettings where
  HostName : String
  InterfaceOpts : String
  ResolvConf : Option ResolvConfiguration
  Proxy : String
  NTP : Option NTPConfiguration
deriving Repr, DecidableEq

/-- `MTAConfiguration` contains the mail transfer agent settings. -/
structure MTAConfiguration where
  Root : String
  Server : String
  UseTLS : Bool
  UseSTARTTLS : Bool
  User : String
  Password : String
  AuthMethod : String
  RewriteDomain : String
  FromLineOverride : Bool
deriving Repr, DecidableEq

/-- `PackagesConfig` contains the specification for the `packages:` block. -/
structure PackagesConfig where
  Repositories : MultiString
  Update : Bool
  Upgrade : Bool
  Install : MultiString
  Uninstall : MultiString
deriving Repr, DecidableEq

/-- `WriteFile` specifies a file to be created on first boot. -/
structure WriteFile where
  Encoding : String
  Content : String
  ContentURL : String
  Path : String
  Owner : String
  Permissions : String
deriving Repr, DecidableEq

/-- `Disk` specifies a disk that should be formatted and mounted. -/
structure Disk where
  Device : String
  FileSystemType : String
  MountPoint : String
deriving Repr, DecidableEq

/-- `AlpineData` is the main alpine-data yaml specification. -/
structure AlpineData where
  RootPasswd : String
  MOTD : String
  Network : Option NetworkSettings
  Packages : Option PackagesConfig
  DRP : Option DRProvision
  SSHDConfig : Option SSHD
  Groups : MultiString
  Users : List User
  RunCMD : List MultiString
  WriteFiles : List WriteFile
  TimeZone : String
  Keymap : String
  UnLift : Bool
  ScratchDisk : String
  Disks : List Disk
  MTA : Option MTAConfiguration
deriving Repr, DecidableEq

/-- Mapping lookup as the serialization library performs it: later
occurrences of a key override earlier ones; `none` when the key is absent. -/
def lookupKey (entries : List (String × YamlNode)) (k : String) : Option YamlNode :=
  entries.foldl (fun acc e => if e.1 = k then some e.2 else acc) none

/-- Decode a `MultiString` field value via the custom
`MultiString.unmarshalYAML`, starting from the zero receiver (Go: nil slice). -/
def decodeMS (v : YamlNode) : Except DecodeError MultiString :=
  match MultiString.unmarshalYAML [] v with
  | (r, none) => .ok r
  | (_, some e) => .error e

/-- Decode one struct field: an absent key keeps the zero value `dflt`, a
present key decodes its value with `dec`. -/
def fieldD {α : Type} (dec : YamlNode → Except DecodeError α) (dflt : α)
    (entries : List (String × YamlNode)) (k : String) : Except DecodeError α :=
  match lookupKey entries k with
  | none => .ok dflt
  | some v => dec v

/-- Decode one optional nested-section field (Go: a nil-able pointer): an
absent key yields `none`, a present key decodes its value with `dec`. -/
def fieldOpt {α : Type} (dec : YamlNode → Except DecodeError α)
    (entries : List (String × YamlNode)) (k : String) :
    Except DecodeError (Option α) :=
  match lookupKey entries k with
  | none => .ok none
  | some v => (dec v).map some

/-- Decode a node at a slice-of-`α` type: it must be a sequence, and every
element is decoded with `dec`. -/
def decodeListOf {α : Type} (dec : YamlNode → Except DecodeError α) :
    YamlNode → Except DecodeError (List α)
  | .seq items => decodeElems dec items
  | _ => .error ⟨"cannot unmarshal node into list"⟩

/-- Decode the `sshd` mapping into `SSHD`; every absent key keeps the field
at its zero value. -/
def decodeSSHD : YamlNode → Except DecodeError SSHD
  | .map entries => do
      let port ← fieldD decodeInt 0 entries ("port")
      let la ← fieldD decodeString ("") entries ("listen_address")
      let ak ← fieldD decodeStringList [] entries ("authorized_keys")
      let prl ← fieldD decodeBool false entries ("permit_root_login")
      let pep ← fieldD decodeBool false entries ("permit_empty_passwords")
      let pa ← fieldD decodeBool false entries ("password_authentication")
      pure ⟨port, la, ak, prl, pep, pa⟩
  | _ => .error ⟨"cannot unmarshal node into sshd"⟩

/-- Decode the `dr_provision` mapping into `DRProvision`. -/
def decodeDRProvision : YamlNode → Except DecodeError DRProvision
  | .map entries => do
      let ir ← fieldD decodeBool false entries ("install_runner")
      let au ← fieldD decodeString ("") entries ("assets_url")
      let tok ← fieldD decodeString ("") entries ("token")
      let ep ← fieldD decodeString ("") entries ("endpoint")
      let uu ← fieldD decodeString ("") entries ("uuid")
      pure ⟨ir, au, tok, ep, uu⟩
  | _ => .error ⟨"cannot unmarshal node into dr_provision"⟩

/-- Decode the `resolv_conf` mapping into `ResolvConfiguration`. -/
def decodeResolvConfiguration : YamlNode → Except DecodeError ResolvConfiguration
  | .map entries => do
      let ns ← fieldD decodeMS [] entries ("nameservers")
      let sd ← fieldD decodeMS [] entries ("search_domains")
      let dom ← fieldD decodeString ("") entries ("domain")
      pure ⟨ns, sd, dom⟩
  | _ => .error ⟨"cannot unmarshal node into resolv_conf"⟩

/-- Decode the `ntp` mapping into `NTPConfiguration`. -/
def decodeNTPConfiguration : YamlNode → Except DecodeError NTPConfiguration
  | .map entries => do
      let pools ← fieldD decodeMS [] entries ("pools")
      let servers ← fieldD decodeMS [] entries ("servers")
      pure ⟨pools, servers⟩
  | _ => .error ⟨"cannot unmarshal node into ntp"⟩

/-- Decode the `network` mapping into `NetworkSettings`. -/
def decodeNetworkSettings : YamlNode → Except DecodeError NetworkSettings
  | .map entries => do
      let hn ← fieldD decodeString ("") entries ("hostname")
      let io ← fieldD decodeString ("") entries ("interfaces")
      let rc ← fieldOpt decodeResolvConfiguration entries ("resolv_conf")
      let px ← fieldD decodeString ("") entries ("proxy")
      let ntp ← fieldOpt decodeNTPConfiguration entries ("ntp")
      pure ⟨hn, io, rc, px, ntp⟩
  | _ => .error ⟨"cannot unmarshal node into network"⟩

/-- Decode the `mta` mapping into `MTAConfiguration`. -/
def decodeMTAConfiguration : YamlNode → Except DecodeError MTAConfiguration
  | .map entries => do
      let root ← fieldD decodeString ("") entries ("root")
      let server ← fieldD decodeString ("") entries ("server")
      let tls ← fieldD decodeBool false entries ("use_tls")
      let stls ← fieldD decodeBool false entries ("use_starttls")
      let user ← fieldD decodeString ("") entries ("user")
      let pw ← fieldD decodeString ("") entries ("password")
      let am ← fieldD decodeString ("") entries ("authmethod")
      let rd ← fieldD decodeString ("") entries ("rewrite_domain")
      let flo ← fieldD decodeBool false entries ("fromline_override")
      pure ⟨root, server, tls, stls, user, pw, am, rd, flo⟩
  | _ => .error ⟨"cannot unmarshal node into mta"⟩

/-- Decode the `packages` mapping into `PackagesConfig`. -/
def decodePackagesConfig : YamlNode → Except DecodeError PackagesConfig
  | .map entries => do
      let repos ← fieldD decodeMS [] entries ("repositories")
      let upd ← fieldD decodeBool false entries ("update")
      let upg ← fieldD decodeBool false entries ("upgrade")
      let inst ← fieldD decodeMS [] entries ("install")
      let uninst ← fieldD decodeMS [] entries ("uninstall")
      pure ⟨repos, upd, upg, inst, uninst⟩
  | _ => .error ⟨"cannot unmarshal node into packages"⟩

/-- Decode one `users` entry into `User`. -/
def decodeUser : YamlNode → Except DecodeError User
  | .map entries => do
      let name ← fieldD decodeString ("") entries ("name")
      let desc ← fieldD decodeString ("") entries ("gecos")
      let home ← fieldD decodeString ("") entries ("homedir")
      let shell ← fieldD decodeString ("") entries ("shell")
      let nch ← fieldD decodeBool false entries ("no_create_homedir")
      let pg ← fieldD decodeString ("") entries ("primary_group")
      let groups ← fieldD decodeMS [] entries ("groups")
      let system ← fieldD decodeBool false entries ("system")
      let keys ← fieldD decodeStringList [] entries ("ssh_authorized_keys")
      let pw ← fieldD decodeString ("") entries ("passwd")
      pure ⟨name, desc, home, shell, nch, pg, groups, system, keys, pw⟩
  | _ => .error ⟨"cannot unmarshal node into user"⟩

/-- Decode one `write_files` entry into `WriteFile`. -/
def decodeWriteFile : YamlNode → Except DecodeError WriteFile
  | .map entries => do
      let enc ← fieldD decodeString ("") entries ("encoding")
      let cont ← fieldD decodeString ("") entries ("content")
      let curl ← fieldD decodeString ("") entries ("content-url")
      let path ← fieldD decodeString ("") entries ("path")
      let owner ← fieldD decodeString ("") entries ("owner")
      let perms ← fieldD decodeString ("") entries ("permissions")
      pure ⟨enc, cont, curl, path, owner, perms⟩
  | _ => .error ⟨"cannot unmarshal node into write_files entry"⟩

/-- Decode one `disks` entry into `Disk`. -/
def decodeDisk : YamlNode → Except DecodeError Disk
  | .map entries => do
      let dev ← fieldD decodeString ("") entries ("device")
      let fst ← fieldD decodeString ("") entries ("filesystem")
      let mp ← fieldD decodeString ("") entries ("mountpoint")
      pure ⟨dev, fst, mp⟩
  | _ => .error ⟨"cannot unmarshal node into disk"⟩

/-- Decode a whole document into `AlpineData`: the document must be a
mapping; each field decodes from its yaml-tag key, keeping its zero value
when the key is absent.  Any field failure fails the whole decode. -/
def decodeAlpineData : YamlNode → Except DecodeError AlpineData
  | .map entries => do
      let pw ← fieldD decodeString ("") entries ("password")
      let motd ← fieldD decodeString ("") entries ("motd")
      let network ← fieldOpt decodeNetworkSettings entries ("network")
      let packages ← fieldOpt decodePackagesConfig entries ("packages")
      let drp ← fieldOpt decodeDRProvision entries ("dr_provision")
      let sshd ← fieldOpt decodeSSHD entries ("sshd")
      let groups ← fieldD decodeMS [] entries ("groups")
      let users ← fieldD (decodeListOf decodeUser) [] entries ("users")
      let runcmd ← fieldD (decodeListOf decodeMS) [] entries ("runcmd")
      let wf ← fieldD (decodeListOf decodeWriteFile) [] entries ("write_files")
      let tz ← fieldD decodeString ("") entries ("timezone")
      let km ← fieldD decodeString ("") entries ("keymap")
      let unlift ← fieldD decodeBool false entries ("unlift")
      let sd ← fieldD decodeString ("") entries ("scratch_disk")
      let disks ← fieldD (decodeListOf decodeDisk) [] entries ("disks")
      let mta ← fieldOpt decodeMTAConfiguration entries ("mta")
      pure ⟨pw, motd, network, packages, drp, sshd, groups, users, runcmd,
            wf, tz, km, unlift, sd, disks, mta⟩
  | _ => .error ⟨"cannot unmarshal node into alpine-data"⟩

/-- `InitAlpineData` initializes alpine-data with sane defaults. -/
def InitAlpineData : AlpineData where
  RootPasswd := ""
  MOTD := ""
  Network := some
    { HostName := "alpine", InterfaceOpts := "", ResolvConf := none,
      Proxy := "", NTP := none }
  Packages := some
    { Repositories :=
        ["http://dl-cdn.alpinelinux.org/alpine/v3.8/main",
         "http://dl-cdn.alpinelinux.org/alpine/v3.8/community"],
      Update := false, Upgrade := false, Install := [], Uninstall := [] }
  DRP := some
    { InstallRunner := true, AssetsURL := "", Token := "", Endpoint := "",
      UUID := "" }
  SSHDConfig := some
    { Port := 22, ListenAddress := "0.0.0.0", AuthorizedKeys := [],
      PermitRootLogin := true, PermitEmptyPasswords := false,
      PasswordAuthentication := false }
  Groups := []
  Users := []
  RunCMD := []
  WriteFiles := []
  TimeZone := "UTC"
  Keymap := "us us"
  UnLift := true
  ScratchDisk := ""
  Disks := []
  MTA := none

/-- Converts bool values to either "yes" or "no". -/
def boolToYesNo (b : Bool) : String :=
  if b then "yes" else "no"

/-- The key-value pairs produced by `getSSHDKVMap` from an `SSHD` section
(the unordered Go `map[string]string` is modelled as an association list with
pairwise-distinct keys). -/
def getSSHDKVMapOf (c : SSHD) : List (String × String) :=
  [("Port", toString c.Port),
   ("ListenAddress", c.ListenAddress),
   ("PermitRootLogin", boolToYesNo c.PermitRootLogin),
   ("PermitEmptyPasswords", boolToYesNo c.PermitEmptyPasswords),
   ("PasswordAuthentication", boolToYesNo c.PasswordAuthentication)]

/-- Modelled from the spec: the `Lift` receiver of `getSSHDKVMap`, of which
this file only needs the parsed alpine-data it carries. -/
structure Lift where
  Data : AlpineData

/-- `getSSHDKVMap` from the source: builds the key-value map from
`l.Data.SSHDConfig`.  The Go code dereferences the `SSHDConfig` pointer
unconditionally; the nil dereference on an absent section is modelled as
`none`. -/
def Lift.getSSHDKVMap (l : Lift) : Option (List (String × String)) :=
  match l.Data.SSHDConfig with
  | some c => some (getSSHDKVMapOf c)
  | none => none

/-- The zero value of `AlpineData`: every field at its Go zero value. -/
def zeroAlpineData : AlpineData :=
  ⟨"", "", none, none, none, none, [], [], [], [], "", "", false, "", [], none⟩

/-- A variant of the default configuration differing from it in the message
of the day and in the authorized keys of the SSH daemon, but agreeing on
the five fields projected by the key-value map. -/
def variantAlpineData : AlpineData :=
  { InitAlpineData with
      MOTD := "hello",
      SSHDConfig := some ⟨22, "0.0.0.0", [("ssh-rsa AAA")], true, false, false⟩ }

/-- A bind in the `Except` monad succeeds exactly when both stages do. -/
theorem exceptBindOk {α β : Type} {x : Except DecodeError α}
    {f : α → Except DecodeError β} {b : β} :
    (x >>= f) = Except.ok b ↔ ∃ a, x = Except.ok a ∧ f a = Except.ok b := by
  cases x <;> simp [Bind.bind, Except.bind]

/-- `pure` in the `Except` monad is `Except.ok`. -/
theorem exceptPureOk {α : Type} {a b : α} :
    (pure a : Except DecodeError α) = Except.ok b ↔ a = b := by
  simp [pure, Except.pure]

/-- Decoding a sequence of string-scalar nodes elementwise yields exactly the
underlying strings. -/
theorem decodeElems_strs (l : List String) :
    decodeElems decodeString (l.map YamlNode.str) = Except.ok l := by
  induction l with
  | nil => rfl
  | cons s rest ih =>
      simp [decodeElems, decodeString, ih, Bind.bind, Except.bind, pure, Except.pure]

/-- Decoding a list-of-string-scalars node at `[]string` yields exactly the
underlying strings. -/
theorem decodeStringList_strs (l : List String) :
    decodeStringList (YamlNode.seq (l.map YamlNode.str)) = Except.ok l := by
  simp [decodeStringList, decodeElems_strs]

/-- A node that is not a string scalar fails to decode at `string`. -/
theorem decodeString_err {v : YamlNode} (h : isStringScalar v = false) :
    ∃ e, decodeString v = Except.error e := by
  cases v <;> simp [isStringScalar] at h <;> exact ⟨_, rfl⟩

/-- A string-scalar node is some `YamlNode.str`. -/
theorem isStringScalar_elim {v : YamlNode} (h : isStringScalar v = true) :
    ∃ s, v = YamlNode.str s := by
  cases v
  case str s => exact ⟨s, rfl⟩
  all_goals simp [isStringScalar] at h

/-- Elementwise string decoding of a sequence containing a non-string element
fails. -/
theorem decodeElems_err {items : List YamlNode}
    (h : items.all isStringScalar = false) :
    ∃ e, decodeElems decodeString items = Except.error e := by
  induction items with
  | nil => simp at h
  | cons v rest ih =>
      rw [List.all_cons] at h
      by_cases hv : isStringScalar v = true
      · rw [hv] at h
        simp only [Bool.true_and] at h
        obtain ⟨s, rfl⟩ := isStringScalar_elim hv
        obtain ⟨e, he⟩ := ih h
        exact ⟨e, by simp [decodeElems, decodeString, he, Bind.bind, Except.bind]⟩
      · obtain ⟨e, he⟩ := decodeString_err (by simpa using hv)
        exact ⟨e, by simp [decodeElems, he, Bind.bind, Except.bind]⟩

/-- A node that is not a list of strings fails to decode at `[]string`. -/
theorem decodeStringList_err {v : YamlNode} (h : isStringList v = false) :
    ∃ e, decodeStringList v = Except.error e := by
  cases v
  case seq items =>
    simp only [isStringList] at h
    obtain ⟨e, he⟩ := decodeElems_err h
    exact ⟨e, by simp [decodeStringList, he]⟩
  all_goals exact ⟨_, rfl⟩

/-- On a node that is neither a list of strings nor a string scalar, the
custom unmarshal returns the single-string attempt error and leaves the
receiver unchanged. -/
theorem unmarshalYAML_err {ms : MultiString} {v : YamlNode}
    (h1 : isStringList v = false) (h2 : isStringScalar v = false) :
    ∃ e, MultiString.unmarshalYAML ms v = (ms, some e) := by
  obtain ⟨e1, he1⟩ := decodeStringList_err h1
  obtain ⟨e2, he2⟩ := decodeString_err h2
  exact ⟨e2, by simp [MultiString.unmarshalYAML, he1, he2]⟩

/-- On a node that is neither a list of strings nor a string scalar, a
`MultiString` field decode fails. -/
theorem decodeMS_err {v : YamlNode}
    (h1 : isStringList v = false) (h2 : isStringScalar v = false) :
    ∃ e, decodeMS v = Except.error e := by
  obtain ⟨e, he⟩ := @unmarshalYAML_err [] v h1 h2
  exact ⟨e, by simp [decodeMS, he]⟩

/-- A successful document decode determines the `groups` and `runcmd` field
decodes: each succeeded and produced the corresponding field of the result. -/
theorem decodeAlpineData_ok_fields {entries : List (String × YamlNode)}
    {d : AlpineData} (h : decodeAlpineData (YamlNode.map entries) = Except.ok d) :
    fieldD decodeMS [] entries ("groups") = Except.ok d.Groups ∧
    fieldD (decodeListOf decodeMS) [] entries ("runcmd") = Except.ok d.RunCMD := by
  simp only [decodeAlpineData] at h
  simp only [exceptBindOk, exceptPureOk] at h
  obtain ⟨a1, h1, a2, h2, a3, h3, a4, h4, a5, h5, a6, h6, a7, h7, a8, h8,
          a9, h9, a10, h10, a11, h11, a12, h12, a13, h13, a14, h14,
          a15, h15, a16, h16, hd⟩ := h
  subst hd
  exact ⟨h7, h9⟩

/-- A successful `packages` decode determines its `MultiString` field
decodes. -/
theorem decodePackagesConfig_ok_fields {entries : List (String × YamlNode)}
    {c : PackagesConfig}
    (h : decodePackagesConfig (YamlNode.map entries) = Except.ok c) :
    fieldD decodeMS [] entries ("repositories") = Except.ok c.Repositories ∧
    fieldD decodeMS [] entries ("install") = Except.ok c.Install ∧
    fieldD decodeMS [] entries ("uninstall") = Except.ok c.Uninstall := by
  simp only [decodePackagesConfig] at h
  simp only [exceptBindOk, exceptPureOk] at h
  obtain ⟨a1, h1, a2, h2, a3, h3, a4, h4, a5, h5, hd⟩ := h
  subst hd
  exact ⟨h1, h4, h5⟩

/-- A successful `resolv_conf` decode determines its `MultiString` field
decodes. -/
theorem decodeResolvConfiguration_ok_fields {entries : List (String × YamlNode)}
    {r : ResolvConfiguration}
    (h : decodeResolvConfiguration (YamlNode.map entries) = Except.ok r) :
    fieldD decodeMS [] entries ("nameservers") = Except.ok r.NameServers ∧
    fieldD decodeMS [] entries ("search_domains") = Except.ok r.SearchDomains := by
  simp only [decodeResolvConfiguration] at h
  simp only [exceptBindOk, exceptPureOk] at h
  obtain ⟨a1, h1, a2, h2, a3, h3, hd⟩ := h
  subst hd
  exact ⟨h1, h2⟩

/-- A successful `ntp` decode determines its `MultiString` field decodes. -/
theorem decodeNTPConfiguration_ok_fields {entries : List (String × YamlNode)}
    {n : NTPConfiguration}
    (h : decodeNTPConfiguration (YamlNode.map entries) = Except.ok n) :
    fieldD decodeMS [] entries ("pools") = Except.ok n.Pools ∧
    fieldD decodeMS [] entries ("servers") = Except.ok n.Servers := by
  simp only [decodeNTPConfiguration] at h
  simp only [exceptBindOk, exceptPureOk] at h
  obtain ⟨a1, h1, a2, h2, hd⟩ := h
  subst hd
  exact ⟨h1, h2⟩

/-- A successful `users` entry decode determines its `groups` field decode. -/
theorem decodeUser_ok_fields {entries : List (String × YamlNode)} {u : User}
    (h : decodeUser (YamlNode.map entries) = Except.ok u) :
    fieldD decodeMS [] entries ("groups") = Except.ok u.Groups := by
  simp only [decodeUser] at h
  simp only [exceptBindOk, exceptPureOk] at h
  obtain ⟨a1, h1, a2, h2, a3, h3, a4, h4, a5, h5, a6, h6, a7, h7, a8, h8,
          a9, h9, a10, h10, hd⟩ := h
  subst hd
  exact h7

/-- A field whose key is absent decodes to the zero value. -/
theorem fieldD_absent {α : Type} {dec : YamlNode → Except DecodeError α}
    {dflt a : α} {entries : List (String × YamlNode)} {k : String}
    (hf : fieldD dec dflt entries k = Except.ok a)
    (hl : lookupKey entries k = none) : a = dflt := by
  simp only [fieldD, hl, Except.ok.injEq] at hf
  exact hf.symm

/-- A field whose key is present decodes its value. -/
theorem fieldD_present {α : Type} {dec : YamlNode → Except DecodeError α}
    {dflt a : α} {entries : List (String × YamlNode)} {k : String} {v : YamlNode}
    (hf : fieldD dec dflt entries k = Except.ok a)
    (hl : lookupKey entries k = some v) : dec v = Except.ok a := by
  simp only [fieldD, hl] at hf
  exact hf

/-- A `MultiString` field decode of a string-scalar node yields the
one-element list. -/
theorem decodeMS_str (s : String) :
    decodeMS (YamlNode.str s) = Except.ok [s] := rfl

/-- A `MultiString` field decode of a list-of-strings node yields that list. -/
theorem decodeMS_strs (l : List String) :
    decodeMS (YamlNode.seq (l.map YamlNode.str)) = Except.ok l := by
  simp [decodeMS, MultiString.unmarshalYAML, decodeStringList_strs]

/-- C1: for every decode source that is a list of N strings (N ≥ 0, an
explicit empty list included), `MultiString` unmarshalling yields exactly
that list — order, element values and duplicates preserved — and for every
source that is a single string scalar `s` it yields the one-element list
`[s]`; in both cases no error is returned, whatever the prior value of the
receiver. -/
theorem multiString_decode_normalizes (ms : MultiString) (l : List String)
    (s : String) :
    MultiString.unmarshalYAML ms (YamlNode.seq (l.map YamlNode.str)) = (l, none) ∧
    MultiString.unmarshalYAML ms (YamlNode.str s) = ([s], none) := by
  constructor
  · simp [MultiString.unmarshalYAML, decodeStringList_strs]
  · rfl

/-- C2: a decode source that is neither a list of strings nor a single
string scalar fails `MultiString` field decoding with a `DecodeError`, and a
document whose `groups` key holds such a source fails to decode as a whole —
there is no partial-success mode. -/
theorem multiString_bad_source_fails (v : YamlNode)
    (h1 : isStringList v = false) (h2 : isStringScalar v = false) :
    (∃ e, decodeMS v = Except.error e) ∧
    (∀ entries, lookupKey entries ("groups") = some v →
      ∃ e, decodeAlpineData (YamlNode.map entries) = Except.error e) := by
  refine ⟨decodeMS_err h1 h2, ?_⟩
  intro entries hl
  cases hres : decodeAlpineData (YamlNode.map entries) with
  | error e => exact ⟨e, rfl⟩
  | ok d =>
      exfalso
      have hg := fieldD_present (decodeAlpineData_ok_fields hres).1 hl
      obtain ⟨e, he⟩ := decodeMS_err h1 h2
      rw [he] at hg
      cases hg

/-- Witness for C2 at the concrete source `7` (an integer scalar), placed
under the `groups` key of a document. -/
theorem multiString_bad_source_fails_witness :
    isStringList (YamlNode.int 7) = false ∧
    isStringScalar (YamlNode.int 7) = false ∧
    lookupKey [(("groups"), YamlNode.int 7)] ("groups") = some (YamlNode.int 7) ∧
    (∃ e, decodeAlpineData (YamlNode.map [(("groups"), YamlNode.int 7)]) =
      Except.error e) :=
  ⟨rfl, rfl, rfl,
    (multiString_bad_source_fails (YamlNode.int 7) rfl rfl).2 _ rfl⟩

/-- C3: after any successful decode, every `MultiString` field holds a list
(its type is a list of strings), never a null state: a field whose key is
entirely absent from the document holds the empty list, a field supplied as
one bare scalar holds the one-element list, and a field supplied as a list
holds exactly that list — at the top level (`groups`, `runcmd`), in
`packages` (`repositories`, `install`, `uninstall`), in `resolv_conf`
(`nameservers`, `search_domains`), in `ntp` (`pools`, `servers`) and in
`users` entries (`groups`). -/
theorem multiString_fields_always_lists :
    (∀ entries d, decodeAlpineData (YamlNode.map entries) = Except.ok d →
      (lookupKey entries ("groups") = none → d.Groups = []) ∧
      (∀ s, lookupKey entries ("groups") = some (YamlNode.str s) →
        d.Groups = [s]) ∧
      (∀ l, lookupKey entries ("groups") = some (YamlNode.seq (l.map YamlNode.str)) →
        d.Groups = l) ∧
      (lookupKey entries ("runcmd") = none → d.RunCMD = [])) ∧
    (∀ entries c, decodePackagesConfig (YamlNode.map entries) = Except.ok c →
      (lookupKey entries ("repositories") = none → c.Repositories = []) ∧
      (lookupKey entries ("install") = none → c.Install = []) ∧
      (lookupKey entries ("uninstall") = none → c.Uninstall = [])) ∧
    (∀ entries r, decodeResolvConfiguration (YamlNode.map entries) = Except.ok r →
      (lookupKey entries ("nameservers") = none → r.NameServers = []) ∧
      (lookupKey entries ("search_domains") = none → r.SearchDomains = [])) ∧
    (∀ entries n, decodeNTPConfiguration (YamlNode.map entries) = Except.ok n →
      (lookupKey entries ("pools") = none → n.Pools = []) ∧
      (lookupKey entries ("servers") = none → n.Servers = [])) ∧
    (∀ entries u, decodeUser (YamlNode.map entries) = Except.ok u →
      lookupKey entries ("groups") = none → u.Groups = []) := by
  refine ⟨?_, ?_, ?_, ?_, ?_⟩
  · intro entries d hdec
    obtain ⟨hg, hr⟩ := decodeAlpineData_ok_fields hdec
    refine ⟨fun hn => fieldD_absent hg hn, ?_, ?_, fun hn => fieldD_absent hr hn⟩
    · intro s hs
      have h3 := (decodeMS_str s).symm.trans (fieldD_present hg hs)
      injection h3 with h4
      exact h4.symm
    · intro l hs
      have h3 := (decodeMS_strs l).symm.trans (fieldD_present hg hs)
      injection h3 with h4
      exact h4.symm
  · intro entries c hdec
    obtain ⟨h1, h2, h3⟩ := decodePackagesConfig_ok_fields hdec
    exact ⟨fun hn => fieldD_absent h1 hn, fun hn => fieldD_absent h2 hn,
           fun hn => fieldD_absent h3 hn⟩
  · intro entries r hdec
    obtain ⟨h1, h2⟩ := decodeResolvConfiguration_ok_fields hdec
    exact ⟨fun hn => fieldD_absent h1 hn, fun hn => fieldD_absent h2 hn⟩
  · intro entries n hdec
    obtain ⟨h1, h2⟩ := decodeNTPConfiguration_ok_fields hdec
    exact ⟨fun hn => fieldD_absent h1 hn, fun hn => fieldD_absent h2 hn⟩
  · intro entries u hdec hn
    exact fieldD_absent (decodeUser_ok_fields hdec) hn

/-- Witness for C3: the empty document decodes successfully and its `groups`
field is the empty list. -/
theorem multiString_fields_always_lists_witness :
    decodeAlpineData (YamlNode.map []) = Except.ok zeroAlpineData ∧
    zeroAlpineData.Groups = [] :=
  ⟨rfl, (multiString_fields_always_lists.1 [] zeroAlpineData rfl).1 rfl⟩

/-- C4: `InitAlpineData` always returns exactly these values: `UnLift` true,
timezone "UTC", keymap "us us", a network section with the placeholder
hostname "alpine" and everything else zero, an SSH daemon section with port
22, listen address "0.0.0.0", root login permitted, empty passwords
forbidden, password authentication disabled, a provisioning-agent section
with the install flag enabled, a packages section with the two default
repository URLs, and every other field at the zero value of its type (the `mta`
section absent); being a constant of the embedding it is total, pure and
deterministic. -/
theorem initAlpineData_defaults :
    InitAlpineData.UnLift = true ∧
    InitAlpineData.TimeZone = "UTC" ∧
    InitAlpineData.Keymap = "us us" ∧
    InitAlpineData.Network = some ⟨"alpine", "", none, "", none⟩ ∧
    InitAlpineData.SSHDConfig = some ⟨22, "0.0.0.0", [], true, false, false⟩ ∧
    InitAlpineData.DRP = some ⟨true, "", "", "", ""⟩ ∧
    InitAlpineData.Packages = some
      ⟨["http://dl-cdn.alpinelinux.org/alpine/v3.8/main",
        "http://dl-cdn.alpinelinux.org/alpine/v3.8/community"],
       false, false, [], []⟩ ∧
    InitAlpineData.RootPasswd = "" ∧
    InitAlpineData.MOTD = "" ∧
    InitAlpineData.Groups = [] ∧
    InitAlpineData.Users = [] ∧
    InitAlpineData.RunCMD = [] ∧
    InitAlpineData.WriteFiles = [] ∧
    InitAlpineData.ScratchDisk = "" ∧
    InitAlpineData.Disks = [] ∧
    InitAlpineData.MTA = none :=
  ⟨rfl, rfl, rfl, rfl, rfl, rfl, rfl, rfl, rfl, rfl, rfl, rfl, rfl, rfl,
   rfl, rfl⟩

/-- C5: for every `SSHD` section, the key-value projection has exactly the
five keys `Port`, `ListenAddress`, `PermitRootLogin`, `PermitEmptyPasswords`
and `PasswordAuthentication`; the port is rendered as its decimal string,
the listen address verbatim, and the three boolean fields through
`boolToYesNo`, which renders `true` as "yes" and `false` as "no". -/
theorem getSSHDKVMap_five_keys (c : SSHD) :
    (getSSHDKVMapOf c).map Prod.fst =
      [("Port"), ("ListenAddress"), ("PermitRootLogin"),
       ("PermitEmptyPasswords"), ("PasswordAuthentication")] ∧
    (getSSHDKVMapOf c).lookup ("Port") = some (toString c.Port) ∧
    (getSSHDKVMapOf c).lookup ("ListenAddress") = some c.ListenAddress ∧
    (getSSHDKVMapOf c).lookup ("PermitRootLogin") =
      some (boolToYesNo c.PermitRootLogin) ∧
    (getSSHDKVMapOf c).lookup ("PermitEmptyPasswords") =
      some (boolToYesNo c.PermitEmptyPasswords) ∧
    (getSSHDKVMapOf c).lookup ("PasswordAuthentication") =
      some (boolToYesNo c.PasswordAuthentication) ∧
    boolToYesNo true = "yes" ∧ boolToYesNo false = "no" := by
  refine ⟨rfl, ?_, ?_, ?_, ?_, ?_, rfl, rfl⟩ <;>
    simp [getSSHDKVMapOf, List.lookup]

/-- C6: the SSH daemon section produced by `InitAlpineData`, passed through
the key-value projection, yields exactly the pairs Port "22",
ListenAddress "0.0.0.0", PermitRootLogin "yes", PermitEmptyPasswords "no",
PasswordAuthentication "no". -/
theorem initAlpineData_sshd_projection :
    Lift.getSSHDKVMap (Lift.mk InitAlpineData) =
      some [(("Port"), ("22")), (("ListenAddress"), ("0.0.0.0")),
            (("PermitRootLogin"), ("yes")), (("PermitEmptyPasswords"), ("no")),
            (("PasswordAuthentication"), ("no"))] := rfl

/-- C7: decoding a document carrying only `sshd: \x7bport: 2222\x7d` yields
an `SSHD` section with port 2222 and every other `SSHD` field at its zero
value, and every other document field at its zero value — decode pulls in no
defaults. -/
theorem decode_sshd_port_only :
    decodeAlpineData
        (YamlNode.map [(("sshd"), YamlNode.map [(("port"), YamlNode.int 2222)])]) =
      Except.ok { zeroAlpineData with
                  SSHDConfig := some ⟨2222, "", [], false, false, false⟩ } := rfl

/-- C8: under the precondition that the SSH daemon section is present, the
key-value projection never fails: it returns a value, namely the pure,
deterministic projection of that section. -/
theorem getSSHDKVMap_total_when_present (l : Lift) (c : SSHD)
    (h : l.Data.SSHDConfig = some c) :
    Lift.getSSHDKVMap l = some (getSSHDKVMapOf c) := by
  simp [Lift.getSSHDKVMap, h]

/-- Witness for C8 on the default-constructed configuration. -/
theorem getSSHDKVMap_total_when_present_witness :
    (Lift.mk InitAlpineData).Data.SSHDConfig =
      some ⟨22, "0.0.0.0", [], true, false, false⟩ ∧
    Lift.getSSHDKVMap (Lift.mk InitAlpineData) =
      some (getSSHDKVMapOf ⟨22, "0.0.0.0", [], true, false, false⟩) :=
  ⟨rfl, getSSHDKVMap_total_when_present (Lift.mk InitAlpineData) _ rfl⟩

/-- C10: two configurations whose SSH daemon sections agree on the five
projected fields produce equal key-value maps, whatever their
`AuthorizedKeys` or any other field of the configuration tree. -/
theorem getSSHDKVMap_depends_on_five_fields (l1 l2 : Lift) (c1 c2 : SSHD)
    (h1 : l1.Data.SSHDConfig = some c1) (h2 : l2.Data.SSHDConfig = some c2)
    (hp : c1.Port = c2.Port) (hl : c1.ListenAddress = c2.ListenAddress)
    (hr : c1.PermitRootLogin = c2.PermitRootLogin)
    (he : c1.PermitEmptyPasswords = c2.PermitEmptyPasswords)
    (ha : c1.PasswordAuthentication = c2.PasswordAuthentication) :
    Lift.getSSHDKVMap l1 = Lift.getSSHDKVMap l2 := by
  simp [Lift.getSSHDKVMap, h1, h2, getSSHDKVMapOf, hp, hl, hr, he, ha]

/-- Witness for C10: two configurations differing in the authorized keys and
in the message of the day, but agreeing on the five projected fields, give
the same map. -/
theorem getSSHDKVMap_depends_on_five_fields_witness :
    (Lift.mk InitAlpineData).Data.SSHDConfig =
      some ⟨22, "0.0.0.0", [], true, false, false⟩ ∧
    (Lift.mk variantAlpineData).Data.SSHDConfig =
      some ⟨22, "0.0.0.0", [("ssh-rsa AAA")], true, false, false⟩ ∧
    Lift.getSSHDKVMap (Lift.mk InitAlpineData) =
      Lift.getSSHDKVMap (Lift.mk variantAlpineData) :=
  ⟨rfl, rfl,
   getSSHDKVMap_depends_on_five_fields _ _ _ _ rfl rfl rfl rfl rfl rfl rfl⟩

/-- C9: when both the list-of-strings attempt and the single-string attempt
fail, the custom unmarshal returns the error of the second attempt and the
receiver keeps its prior value — no partial assignment happens on a failing
decode. -/
theorem unmarshalYAML_atomic_on_error (ms : MultiString) (v : YamlNode)
    (e1 e2 : DecodeError)
    (h1 : decodeStringList v = Except.error e1)
    (h2 : decodeString v = Except.error e2) :
    MultiString.unmarshalYAML ms v = (ms, some e2) := by
  simp [MultiString.unmarshalYAML, h1, h2]

/-- Witness for C9 at the concrete source `5` with a non-empty prior
receiver. -/
theorem unmarshalYAML_atomic_on_error_witness :
    decodeStringList (YamlNode.int 5) =
      Except.error ⟨"cannot unmarshal node into string list"⟩ ∧
    decodeString (YamlNode.int 5) =
      Except.error ⟨"cannot unmarshal node into string"⟩ ∧
    MultiString.unmarshalYAML [("keep")] (YamlNode.int 5) =
      ([("keep")], some ⟨"cannot unmarshal node into string"⟩) :=
  ⟨rfl, rfl,
   unmarshalYAML_atomic_on_error [("keep")] (YamlNode.int 5) _ _ rfl rfl⟩
